import Mathlib

/-! Verification of the Sentinel-V core engine (`src/core.py`).

This file is a shallow embedding of the reconnaissance / risk-scoring core of
the Sentinel-V repository (`src/core.py`): scan-mode configurations,
the quantum-threat analyzer (`QuantumThreatAnalyzer.assess_crypto_vulnerability`
and `recommend_pqc_algorithm`), subdomain discovery (`SentinelAgent.run_recon`),
the geolocation and TLS probes (`get_geo_data`, `check_ssl_cert`) and the
per-asset analysis pipeline (`_analyze_asset`).

Modelling conventions:
* Python strings become `String`, Python ints become `Nat`/`Int`, Python
  floats appearing only as literal sentinel data (latitude/longitude) become
  `Float` constants that are never computed with.
* Network effects are made explicit: each probe takes an *environment* value
  describing the outcome of its network calls (DNS result, HTTP responses of
  the primary and fallback geolocation providers, TLS handshake outcome).
  A Python `except` branch becomes an explicit constructor of that outcome
  type; the probes themselves are total functions, which is the embedded form
  of "no exception escapes the probe boundary".
* `time.sleep` / stealth pacing delays have no effect on any computed value
  and are not modelled; wall-clock behaviour of the sequential analysis loop
  is modelled separately by an explicit elapsed-time function.
* `datetime.now().year` is threaded through as an explicit `current_year`
  parameter.
-/

namespace SentinelV

/-! Section: string containment (Python `needle in hay`). -/

/-- Auxiliary substring search on character lists: does `needle` occur as a
contiguous sublist of the second argument? -/
def substrAux (needle : List Char) : List Char → Bool
  | [] => needle.isEmpty
  | c :: cs => needle.isPrefixOf (c :: cs) || substrAux needle cs

/-- Python's `needle in hay` substring test. -/
def strContains (hay needle : String) : Bool :=
  substrAux needle.toList hay.toList

/-- Python's `str.lower()` on ASCII hostnames: the same character-by-character
case mapping as `String.toLower`, stated over the character list. -/
def strLower (s : String) : String := ⟨s.toList.map Char.toLower⟩

/-- Python's `str.upper()` on ASCII cipher names, as for `strLower`. -/
def strUpper (s : String) : String := ⟨s.toList.map Char.toUpper⟩

/-! Section: scan-mode configurations (`ScanMode.get_config`).

The `description` fields and the `delay_between_requests` pacing delays are
presentation/timing data with no influence on any computed value; they are
omitted from the embedded record. -/

structure ScanConfig where
  max_assets : Nat
  enable_quantum : Bool
  enable_ssl_check : Bool
  enable_geo : Bool
  subdomain_sources : List String
  timeout : Nat
deriving DecidableEq, Repr

/-- Configuration `ScanMode.get_config("Standard Recon")`. -/
def standardConfig : ScanConfig :=
  { max_assets := 10, enable_quantum := false, enable_ssl_check := true,
    enable_geo := true, subdomain_sources := ["common"], timeout := 10 }

/-- Configuration `ScanMode.get_config("Deep Quantum Analysis")`. -/
def deepQuantumConfig : ScanConfig :=
  { max_assets := 25, enable_quantum := true, enable_ssl_check := true,
    enable_geo := true, subdomain_sources := ["crt.sh", "common"], timeout := 30 }

/-- Configuration `ScanMode.get_config("Stealth Mode")`. -/
def stealthConfig : ScanConfig :=
  { max_assets := 15, enable_quantum := true, enable_ssl_check := true,
    enable_geo := true, subdomain_sources := ["common"], timeout := 20 }

/-- Configuration `ScanMode.get_config("Comprehensive Audit")`. -/
def comprehensiveConfig : ScanConfig :=
  { max_assets := 50, enable_quantum := true, enable_ssl_check := true,
    enable_geo := true, subdomain_sources := ["crt.sh", "common", "extended"], timeout := 45 }

/-! Section: the quantum threat analyzer (`QuantumThreatAnalyzer`). -/

/-- One entry of the `vulnerability_map` dictionary inside
`assess_crypto_vulnerability`. -/
structure ThreatInfo where
  algorithm_threat : String
  quantum_speedup : String
  vulnerability_year : Int
  severity : String
deriving DecidableEq, Repr

/-- The `vulnerability_map` dictionary (with its `.get(category, map['RSA'])`
default): the RSA entry's year depends on the `key_size` captured at call
time. -/
def vulnerability_map (key_size : Nat) (category : String) : ThreatInfo :=
  if category = "RSA" then
    ⟨"Shor", "Exponential", if key_size ≤ 2048 then 2030 else 2032, "CRITICAL"⟩
  else if category = "ECC" then
    ⟨"Shor", "Exponential", 2030, "CRITICAL"⟩
  else if category = "AES" then
    ⟨"Grover", "Quadratic", 2040, "MODERATE"⟩
  else if category = "SHA" then
    ⟨"Grover", "Quadratic", 2040, "LOW"⟩
  else  -- dictionary lookup default: vulnerability_map['RSA']
    ⟨"Shor", "Exponential", if key_size ≤ 2048 then 2030 else 2032, "CRITICAL"⟩

/-- Return value of `assess_crypto_vulnerability`. -/
structure QuantumAssessment where
  crypto_type : String
  key_size : Nat
  threat_algorithm : String
  quantum_speedup : String
  years_until_vulnerable : Int
  vulnerability_year : Int
  quantum_risk_score : Nat
  urgency : String
  severity : String
deriving DecidableEq, Repr

/-- Function `QuantumThreatAnalyzer.assess_crypto_vulnerability(crypto_type, key_size)`
with `datetime.now().year` made an explicit `current_year` parameter. -/
def assess_crypto_vulnerability (crypto_type : String) (key_size : Nat)
    (current_year : Int) : QuantumAssessment :=
  let crypto_category := if key_size ≥ 1024 then "RSA" else crypto_type
  let threat_info := vulnerability_map key_size crypto_category
  let years_until_vulnerable : Int := max 0 (threat_info.vulnerability_year - current_year)
  let rs_u : Nat × String :=
    if years_until_vulnerable ≤ 3 then (95, "IMMEDIATE")
    else if years_until_vulnerable ≤ 5 then (85, "URGENT")
    else if years_until_vulnerable ≤ 7 then (70, "HIGH")
    else (50, "MODERATE")
  { crypto_type := crypto_category
    key_size := key_size
    threat_algorithm := threat_info.algorithm_threat
    quantum_speedup := threat_info.quantum_speedup
    years_until_vulnerable := years_until_vulnerable
    vulnerability_year := threat_info.vulnerability_year
    quantum_risk_score := rs_u.1
    urgency := rs_u.2
    severity := threat_info.severity }

/-- One row of the `recommendations` table inside `recommend_pqc_algorithm`. -/
structure RecRow where
  key_encapsulation : String
  digital_signature : String
  hash : String
  migration_priority : String
  timeline : String
deriving DecidableEq, Repr

/-- The `recommendations` table, with its `.get(criticality,
recommendations['MODERATE'])` default. -/
def pqc_recommendations (criticality : String) : RecRow :=
  if criticality = "CRITICAL" then
    ⟨"ML-KEM-1024", "ML-DSA-87", "SHA-3-512", "P0 - Immediate", "0-3 months"⟩
  else if criticality = "HIGH" then
    ⟨"ML-KEM-768", "ML-DSA-65", "SHA-3-256", "P1 - Urgent", "3-6 months"⟩
  else if criticality = "MODERATE" then
    ⟨"ML-KEM-512", "ML-DSA-44", "SHA-3-256", "P2 - Standard", "6-12 months"⟩
  else  -- dictionary lookup default: recommendations['MODERATE']
    ⟨"ML-KEM-512", "ML-DSA-44", "SHA-3-256", "P2 - Standard", "6-12 months"⟩

/-- Return value of `recommend_pqc_algorithm`. -/
structure PQCRecommendation where
  criticality : String
  recommended_kem : String
  recommended_signature : String
  recommended_hash : String
  migration_priority : String
  timeline : String
  hybrid_mode : String
  nist_standard : String
deriving DecidableEq, Repr

/-- Function `QuantumThreatAnalyzer.recommend_pqc_algorithm(asset_type, criticality)`.
The `asset_type` argument is accepted and ignored, exactly as in the source. -/
def recommend_pqc_algorithm (asset_type criticality : String) : PQCRecommendation :=
  let recommendation := pqc_recommendations criticality
  { criticality := criticality
    recommended_kem := recommendation.key_encapsulation
    recommended_signature := recommendation.digital_signature
    recommended_hash := recommendation.hash
    migration_priority := recommendation.migration_priority
    timeline := recommendation.timeline
    hybrid_mode := "Combine with classical crypto during transition"
    nist_standard := "FIPS 203, 204, 205" }

/-! Section: the geolocation probe (`SentinelAgent.get_geo_data`).

The probe's network interactions are made explicit as an environment value:
the DNS resolution outcome and the outcomes of the two HTTP geolocation
providers.  Every Python `except` branch is a constructor here, so the
embedded probe is a total function — the embedded form of "no exception
propagates past the probe boundary". -/

/-- The geolocation record assembled by `get_geo_data` / `_default_geo`. -/
structure GeoData where
  lat : Float
  lon : Float
  country : String
  city : String
  isp : String
  ip : String
  timezone : String

/-- Sentinel record `SentinelAgent._default_geo`. -/
def default_geo : GeoData :=
  { lat := 0.0, lon := 0.0, country := "Unknown", city := "Unknown",
    isp := "Unknown", ip := "N/A", timezone := "Unknown" }

/-- Outcome of `socket.gethostbyname` under `asyncio.wait_for`: an IP string,
or any of `socket.gaierror` / timeout / other failure. -/
inductive DnsResult where
  | ok (ip : String)
  | failure
deriving DecidableEq, Repr

/-- JSON payload of the primary provider (`ip-api.com`); each field models
`data.get(key)` so an absent key is `none`. -/
structure PrimaryPayload where
  status : Option String
  lat : Option Float
  lon : Option Float
  country : Option String
  city : Option String
  isp : Option String
  timezone : Option String

/-- Outcome of the primary provider request.  `timeout` is the
`asyncio.TimeoutError` caught by the inner `except`; `httpError` is a
non-200 status falling through the `if resp.status == 200` check;
`otherError` is any other exception (connection error, malformed JSON),
which escapes the inner `except asyncio.TimeoutError` and is caught by the
*outer* handler — short-circuiting to the sentinel without trying the
fallback provider. -/
inductive PrimaryResult where
  | timeout
  | httpError
  | payload (d : PrimaryPayload)
  | otherError

/-- JSON payload of the fallback provider (`ipapi.co`). -/
structure FallbackPayload where
  latitude : Option Float
  longitude : Option Float
  country_name : Option String
  city : Option String
  org : Option String
  timezone : Option String

/-- Outcome of the fallback provider request: a non-200 status, a payload, or
any exception (all swallowed by the bare `except`). -/
inductive FallbackResult where
  | httpError
  | payload (d : FallbackPayload)
  | error

/-- The complete network environment one `get_geo_data` call observes. -/
structure GeoEnv where
  dns : DnsResult
  primary : PrimaryResult
  fallback : FallbackResult

/-- The `GeoData` built from a successful primary-provider payload, with the
source's `data.get(key, default)` defaults. -/
def geo_from_primary (ip : String) (d : PrimaryPayload) : GeoData :=
  { lat := d.lat.getD 0.0, lon := d.lon.getD 0.0,
    country := d.country.getD "Unknown", city := d.city.getD "Unknown",
    isp := d.isp.getD "Unknown", ip := ip, timezone := d.timezone.getD "Unknown" }

/-- The `GeoData` built from a 200-status fallback-provider payload (the
fallback path performs no JSON `status` check). -/
def geo_from_fallback (ip : String) (d : FallbackPayload) : GeoData :=
  { lat := d.latitude.getD 0.0, lon := d.longitude.getD 0.0,
    country := d.country_name.getD "Unknown", city := d.city.getD "Unknown",
    isp := d.org.getD "Unknown", ip := ip, timezone := d.timezone.getD "Unknown" }

/-- The fallback-provider block: any failure falls through to the sentinel. -/
def try_fallback (ip : String) : FallbackResult → GeoData
  | .payload d => geo_from_fallback ip d
  | .httpError => default_geo
  | .error => default_geo

/-- Function `SentinelAgent.get_geo_data(asset)` as a function of the probe
environment.  The primary payload is used only when its JSON `status` field
equals `"success"`; a primary timeout or non-200/non-success response falls
through to the fallback provider; any other primary exception is caught by
the outer handler and yields the sentinel directly. -/
def get_geo_data (cfg : ScanConfig) (env : GeoEnv) : GeoData :=
  if ¬ cfg.enable_geo then default_geo
  else
    match env.dns with
    | .failure => default_geo
    | .ok ip =>
      match env.primary with
      | .payload d =>
        if d.status = some "success" then geo_from_primary ip d
        else try_fallback ip env.fallback
      | .timeout => try_fallback ip env.fallback
      | .httpError => try_fallback ip env.fallback
      | .otherError => default_geo

/-! Section: the TLS probe (`SentinelAgent.check_ssl_cert`). -/

/-- The record assembled by `check_ssl_cert`. -/
structure SslData where
  valid : Bool
  issuer : String
  version : String
  cipher : String
  quantum_safe : Bool
deriving DecidableEq, Repr

/-- Data captured from a successful TLS handshake: the issuer organization
name, negotiated protocol version and cipher-suite name. -/
structure SslSuccess where
  issuer : String
  version : String
  cipher : String
deriving DecidableEq, Repr

/-- Outcome of the TLS handshake: success, or any exception
(connection/handshake/certificate-parsing error or timeout, all caught by
the single `except Exception`). -/
inductive SslProbe where
  | ok (info : SslSuccess)
  | failure
deriving DecidableEq, Repr

/-- The fixed hybrid-PQC cipher token allow-list used by `check_ssl_cert`. -/
def quantum_cipher_tokens : List String := ["CECPQ2", "KYBER", "NTRU", "SIKE"]

/-- The sentinel TLS record returned when the check is disabled or fails. -/
def default_ssl : SslData :=
  { valid := false, issuer := "N/A", version := "N/A", cipher := "Unknown",
    quantum_safe := false }

/-- Function `SentinelAgent.check_ssl_cert(asset)` as a function of the handshake
outcome. -/
def check_ssl_cert (cfg : ScanConfig) (env : SslProbe) : SslData :=
  if ¬ cfg.enable_ssl_check then default_ssl
  else
    match env with
    | .failure => default_ssl
    | .ok info =>
      { valid := true, issuer := info.issuer, version := info.version,
        cipher := info.cipher,
        quantum_safe := quantum_cipher_tokens.any
          (fun qc => strContains (strUpper info.cipher) qc) }

/-! Section: subdomain discovery (`SentinelAgent.run_recon`). -/

/-- The `common_subdomains` wordlist. -/
def common_subdomains : List String :=
  ["www", "mail", "remote", "blog", "webmail", "server",
   "ns1", "ns2", "smtp", "secure", "vpn", "api", "vault",
   "admin", "dev", "staging", "test", "portal", "gateway",
   "pqc", "quantum", "shield", "sentinel", "monitor",
   "auth", "sso", "identity", "iam", "keys", "crypto"]

/-- The `extended_subdomains` wordlist. -/
def extended_subdomains : List String :=
  ["internal", "external", "public", "private", "prod",
   "backup", "db", "database", "mysql", "postgres", "redis",
   "elk", "kibana", "grafana", "prometheus", "jenkins",
   "gitlab", "github", "bitbucket", "docker", "k8s",
   "aws", "azure", "gcp", "cloud", "cdn", "static",
   "img", "images", "assets", "media", "video", "files",
   "app", "mobile", "ios", "android", "web", "frontend",
   "backend", "api-v1", "api-v2", "graphql", "rest"]

/-- The names extracted from a successful crt.sh JSON response, given the
list of `name_value` entries: take the first 100 entries, lowercase,
split on newlines, strip whitespace, drop `*.` wildcard markers, and keep
non-empty names containing the domain.  A failed crt.sh request contributes
the empty list. -/
def ct_names (domain : String) (entries : List String) : List String :=
  (entries.take 100).flatMap (fun name =>
    ((strLower name).splitOn "\n").filterMap (fun subdomain =>
      let subdomain := (subdomain.trim).replace "*." ""
      if subdomain ≠ "" ∧ strContains subdomain domain then some subdomain
      else none))

/-- The multiset of candidate hostnames accumulated by `run_recon` before
deduplication, sorting and truncation (the Python `discovered_assets` set,
root domain included). -/
def discovered_assets (domain : String) (cfg : ScanConfig) (ct : List String) :
    List String :=
  let s1 : List String :=
    if cfg.subdomain_sources.contains "crt.sh" then ct_names domain ct else []
  let s2 := if cfg.subdomain_sources.contains "common" then
      s1 ++ common_subdomains.map (fun sub => sub ++ "." ++ domain) else s1
  let s3 := if cfg.subdomain_sources.contains "extended" then
      s2 ++ extended_subdomains.map (fun sub => sub ++ "." ++ domain) else s2
  s3 ++ [domain]

/-- Code-point lexicographic comparison of character lists: Python's `<=`
on strings. -/
def charListLe : List Char → List Char → Bool
  | [], _ => true
  | _ :: _, [] => false
  | a :: as, b :: bs =>
    if a.toNat < b.toNat then true
    else if b.toNat < a.toNat then false
    else charListLe as bs

/-- Python string comparison `a <= b` (code-point lexicographic). -/
def strLe (a b : String) : Bool := charListLe a.toList b.toList

/-- Insert a string into a list sorted by `strLe`, keeping it sorted. -/
def orderedInsertStr (a : String) : List String → List String
  | [] => [a]
  | b :: l => if strLe a b then a :: b :: l else b :: orderedInsertStr a l

/-- Insertion sort by `strLe`: on a duplicate-free list this returns exactly
the ascending code-point ordering that Python's `sorted` produces. -/
def sortStrings : List String → List String
  | [] => []
  | b :: l => orderedInsertStr b (sortStrings l)

/-- Python `sorted(list(discovered_assets))`: the deduplicated candidates in
ascending lexicographic order. -/
def sorted_assets (domain : String) (cfg : ScanConfig) (ct : List String) :
    List String :=
  sortStrings (discovered_assets domain cfg ct).dedup

/-- Function `SentinelAgent.run_recon()` as a function of the crt.sh response:
`sorted(list(discovered_assets))[:max_assets]`. -/
def run_recon (domain : String) (cfg : ScanConfig) (ct : List String) :
    List String :=
  (sorted_assets domain cfg ct).take cfg.max_assets

/-! Section: per-asset analysis (`SentinelAgent._analyze_asset`). -/

/-- The `critical_keywords` list in `_analyze_asset`. -/
def critical_keywords : List String :=
  ["vault", "api", "pqc", "secure", "admin", "gateway", "quantum", "keys",
   "auth", "iam", "sso", "identity"]

/-- The dev/test/staging keyword list in `_analyze_asset`. -/
def moderate_keywords : List String := ["dev", "test", "staging"]

/-- Criticality derivation from naming patterns in `_analyze_asset`:
critical keywords dominate, then dev/test/staging, default `HIGH`. -/
def assetCriticality (asset : String) : String :=
  if critical_keywords.any (fun keyword => strContains (strLower asset) keyword) then
    "CRITICAL"
  else if moderate_keywords.any (fun k => strContains (strLower asset) k) then
    "MODERATE"
  else
    "HIGH"

/-- The subset of the crypto-assessment dictionary read downstream by
`_analyze_asset` (both the real assessment and the quantum-disabled basic
one populate exactly these keys plus presentation fields). -/
structure CryptoView where
  threat_algorithm : String
  years_until_vulnerable : Int
  urgency : String
  quantum_risk_score : Nat
deriving DecidableEq, Repr

/-- Projection of a full assessment onto the fields `_analyze_asset` reads. -/
def QuantumAssessment.view (a : QuantumAssessment) : CryptoView :=
  ⟨a.threat_algorithm, a.years_until_vulnerable, a.urgency, a.quantum_risk_score⟩

/-- The subset of the PQC-recommendation dictionary read by
`_analyze_asset`. -/
structure PQCView where
  recommended_kem : String
  recommended_signature : String
  migration_priority : String
  timeline : String
deriving DecidableEq, Repr

/-- Projection of a full recommendation onto the fields read downstream. -/
def PQCRecommendation.view (r : PQCRecommendation) : PQCView :=
  ⟨r.recommended_kem, r.recommended_signature, r.migration_priority, r.timeline⟩

/-- The basic crypto assessment used when quantum analysis is disabled. -/
def basic_assessment : CryptoView :=
  { threat_algorithm := "N/A", years_until_vulnerable := 10,
    urgency := "MONITOR", quantum_risk_score := 30 }

/-- The basic PQC recommendation used when quantum analysis is disabled. -/
def basic_pqc : PQCView :=
  { recommended_kem := "N/A", recommended_signature := "N/A",
    migration_priority := "N/A", timeline := "N/A" }

/-- The composite 0–100 risk score computed in `_analyze_asset`:
criticality points, then TLS points, then the capped quantum term (only when
quantum analysis is enabled), then the unknown-geolocation term.  `//` is
`Nat` floor division, as in Python on these non-negative scores. -/
def risk_score (criticality : String) (ssl_data : SslData)
    (enable_quantum : Bool) (quantum_risk_score : Nat) (country : String) : Nat :=
  (if criticality = "CRITICAL" then 40
   else if criticality = "HIGH" then 25 else 15)
  + (if ¬ ssl_data.valid then 20
     else if ¬ ssl_data.quantum_safe then 15 else 0)
  + (if enable_quantum then min 30 (quantum_risk_score / 3) else 0)
  + (if country = "Unknown" then 10 else 0)

/-- The categorical risk level derived from the score in `_analyze_asset`. -/
def risk_level (score : Nat) : String :=
  if score ≥ 80 then "Critical (HNDL)"
  else if score ≥ 60 then "High - Quantum Vulnerable"
  else if score ≥ 40 then "Moderate"
  else "Low"

/-- The display colour derived from the score in `_analyze_asset`. -/
def risk_color (score : Nat) : String :=
  if score ≥ 80 then "red"
  else if score ≥ 60 then "orange"
  else if score ≥ 40 then "yellow"
  else "blue"

/-- The `solution_parts` clause list assembled in `_analyze_asset`. -/
def solution_parts (enable_quantum : Bool) (crypto_assessment : CryptoView)
    (pqc_recommendation : PQCView) (ssl_data : SslData) : List String :=
  (if enable_quantum ∧ (crypto_assessment.urgency = "IMMEDIATE" ∨
      crypto_assessment.urgency = "URGENT") then
    ["QUANTUM THREAT: Migrate to " ++ pqc_recommendation.recommended_kem]
   else []) ++
  (if ¬ ssl_data.valid then ["Deploy valid SSL/TLS certificate"] else []) ++
  (if enable_quantum ∧ ¬ ssl_data.quantum_safe then
    ["Enable hybrid classical-PQC mode"] else [])

/-- The remediation string: the applicable clauses joined by `" | "`, or the
monitoring default when no clause applies. -/
def solution (enable_quantum : Bool) (crypto_assessment : CryptoView)
    (pqc_recommendation : PQCView) (ssl_data : SslData) : String :=
  let parts := solution_parts enable_quantum crypto_assessment
    pqc_recommendation ssl_data
  let parts := if parts.isEmpty then
      ["Maintain quarterly security audits and monitoring"] else parts
  String.intercalate " | " parts

/-- The per-asset report dictionary returned by `_analyze_asset`.  The
`asset_id` SHA-256 fingerprint and the wall-clock `timestamp` are
presentation fields outside the scope of the embedding. -/
structure AssetReport where
  asset : String
  ip : String
  lat : Float
  lon : Float
  country : String
  city : String
  isp : String
  timezone : String
  ssl_valid : Bool
  ssl_version : String
  ssl_cipher : String
  quantum_safe_crypto : Bool
  criticality : String
  Quantum_Risk : String
  Risk_Score : Nat
  quantum_threat_algorithm : String
  quantum_years_vulnerable : Int
  quantum_urgency : String
  PQC_Migration : String
  PQC_Signature : String
  PQC_Priority : String
  PQC_Timeline : String
  Solution : String
  color : String
  harvest_now_threat : Bool

/-- Function `SentinelAgent._analyze_asset(asset)` as a function of the probe
environments and the current year.  The agent constructs
`quantum_analyzer` exactly when `config['enable_quantum']` holds, so both
the analyzer presence and the scoring term are driven by
`cfg.enable_quantum`. -/
def analyze_asset (asset : String) (cfg : ScanConfig) (genv : GeoEnv)
    (senv : SslProbe) (current_year : Int) : AssetReport :=
  let geo_data := get_geo_data cfg genv
  let ssl_data := check_ssl_cert cfg senv
  let criticality := assetCriticality asset
  let crypto_assessment : CryptoView :=
    if cfg.enable_quantum then
      (assess_crypto_vulnerability "RSA" 2048 current_year).view
    else basic_assessment
  let pqc_recommendation : PQCView :=
    if cfg.enable_quantum then
      (recommend_pqc_algorithm asset criticality).view
    else basic_pqc
  let score := risk_score criticality ssl_data cfg.enable_quantum
    crypto_assessment.quantum_risk_score geo_data.country
  { asset := asset
    ip := geo_data.ip
    lat := geo_data.lat
    lon := geo_data.lon
    country := geo_data.country
    city := geo_data.city
    isp := geo_data.isp
    timezone := geo_data.timezone
    ssl_valid := ssl_data.valid
    ssl_version := ssl_data.version
    ssl_cipher := ssl_data.cipher
    quantum_safe_crypto := ssl_data.quantum_safe
    criticality := criticality
    Quantum_Risk := risk_level score
    Risk_Score := score
    quantum_threat_algorithm := crypto_assessment.threat_algorithm
    quantum_years_vulnerable := crypto_assessment.years_until_vulnerable
    quantum_urgency := crypto_assessment.urgency
    PQC_Migration := pqc_recommendation.recommended_kem
    PQC_Signature := pqc_recommendation.recommended_signature
    PQC_Priority := pqc_recommendation.migration_priority
    PQC_Timeline := pqc_recommendation.timeline
    Solution := solution cfg.enable_quantum crypto_assessment
      pqc_recommendation ssl_data
    color := risk_color score
    harvest_now_threat := crypto_assessment.years_until_vulnerable ≤ 10 }

/-! Section: orchestration (`build_intelligence`, `run_audit`). -/

/-- The result table assembled by `SentinelAgent.build_intelligence`: the
loop body analyzes each asset in turn and appends its report in input order
(in the embedding the per-asset pipeline is total, so the per-asset
`except` never fires and no row is dropped). -/
def build_intelligence (assets : List String) (cfg : ScanConfig)
    (genv : String → GeoEnv) (senv : String → SslProbe)
    (current_year : Int) : List AssetReport :=
  assets.map (fun asset => analyze_asset asset cfg (genv asset) (senv asset) current_year)

/-- Function `run_audit(domain, scan_mode)`: discovery followed by the per-asset
analysis loop. -/
def run_audit (domain : String) (cfg : ScanConfig) (ct : List String)
    (genv : String → GeoEnv) (senv : String → SslProbe)
    (current_year : Int) : List AssetReport :=
  build_intelligence (run_recon domain cfg ct) cfg genv senv current_year

/-- Elapsed-time model of `build_intelligence`: the loop is strictly
sequential — each iteration `await`s the complete analysis of one asset
before starting the next — so the elapsed wall-clock time of the loop is
the sum of the individual per-asset elapsed times. -/
def build_intelligence_elapsed (per_asset : List Nat) : Nat :=
  per_asset.foldl (fun acc t => acc + t) 0

/-! Section: helper lemmas shared by the claim theorems below. -/

/-- Membership in an insertion step. -/
theorem mem_orderedInsertStr {b : String} (a : String) (l : List String) :
    b ∈ orderedInsertStr a l ↔ b = a ∨ b ∈ l := by
  induction l with
  | nil => simp [orderedInsertStr]
  | cons c l ih =>
    simp only [orderedInsertStr]
    split <;> simp [ih] <;> tauto

/-- Sorting preserves membership. -/
theorem mem_sortStrings {a : String} (l : List String) :
    a ∈ sortStrings l ↔ a ∈ l := by
  induction l with
  | nil => simp [sortStrings]
  | cons b l ih => simp [sortStrings, mem_orderedInsertStr, ih]

/-- The four score components are bounded by 40, 20, 30 and 10. -/
theorem risk_score_le_100 (c : String) (ssl : SslData) (b : Bool) (q : Nat)
    (co : String) : risk_score c ssl b q co ≤ 100 := by
  have h : min 30 (q / 3) ≤ 30 := Nat.min_le_left _ _
  simp only [risk_score]
  split_ifs <;> omega

/-- With quantum analysis disabled the score ignores the quantum risk input. -/
theorem risk_score_quantum_off (c : String) (ssl : SslData) (q q' : Nat)
    (co : String) :
    risk_score c ssl false q co = risk_score c ssl false q' co := by
  simp [risk_score]

/-- With quantum analysis disabled the quantum term is 0, so at most
40 + 20 + 10 points remain. -/
theorem risk_score_quantum_off_le_70 (c : String) (ssl : SslData) (q : Nat)
    (co : String) : risk_score c ssl false q co ≤ 70 := by
  simp only [risk_score, Bool.false_eq_true, if_false]
  split_ifs <;> omega

/-- Projection: the report score is the scoring function applied to the
criticality, TLS record, quantum flag, assessed risk score and geo country. -/
theorem analyze_Risk_Score (a : String) (cfg : ScanConfig) (g : GeoEnv)
    (s : SslProbe) (y : Int) :
    (analyze_asset a cfg g s y).Risk_Score =
      risk_score (assetCriticality a) (check_ssl_cert cfg s) cfg.enable_quantum
        (if cfg.enable_quantum then
          (assess_crypto_vulnerability "RSA" 2048 y).quantum_risk_score
         else 30)
        (get_geo_data cfg g).country := by
  cases hb : cfg.enable_quantum <;>
    simp [analyze_asset, hb, basic_assessment, QuantumAssessment.view]

/-- Projection: the report level is derived from the report score alone. -/
theorem analyze_Quantum_Risk (a : String) (cfg : ScanConfig) (g : GeoEnv)
    (s : SslProbe) (y : Int) :
    (analyze_asset a cfg g s y).Quantum_Risk =
      risk_level (analyze_asset a cfg g s y).Risk_Score := rfl

/-- Projection: the report remediation string. -/
theorem analyze_Solution (a : String) (cfg : ScanConfig) (g : GeoEnv)
    (s : SslProbe) (y : Int) :
    (analyze_asset a cfg g s y).Solution =
      solution cfg.enable_quantum
        (if cfg.enable_quantum then
          (assess_crypto_vulnerability "RSA" 2048 y).view else basic_assessment)
        (if cfg.enable_quantum then
          (recommend_pqc_algorithm a (assetCriticality a)).view else basic_pqc)
        (check_ssl_cert cfg s) := rfl

/-- In the assessment, urgency `IMMEDIATE` and risk score 95 are set
together. -/
theorem urgency_immediate_quantum_risk (c : String) (k : Nat) (y : Int)
    (h : (assess_crypto_vulnerability c k y).urgency = "IMMEDIATE") :
    (assess_crypto_vulnerability c k y).quantum_risk_score = 95 := by
  simp only [assess_crypto_vulnerability] at h ⊢
  split_ifs at h ⊢ <;> simp_all

/-! Section: the claims, settled. -/

/-- Failure of the primary geolocation provider in the sense of the claim:
timeout, HTTP non-200 status, a payload whose JSON status is not
`"success"`, or any other error (connection failure / malformed payload). -/
def primary_failed : PrimaryResult → Prop
  | .timeout => True
  | .httpError => True
  | .otherError => True
  | .payload d => d.status ≠ some "success"

/-- Failure of the fallback geolocation provider: HTTP non-200 status or
any exception (timeout, connection failure, malformed payload). -/
def fallback_failed : FallbackResult → Prop
  | .payload _ => False
  | .httpError => True
  | .error => True

/-- C1: for every analyzed asset the computed risk score is at most 100
(and at least 0, being a `Nat`), the report's categorical risk level is a
pure function of the score alone, and that function follows exactly the
fixed thresholds: at least 80 gives the critical level, 60–79 the high
level, 40–59 the moderate level and below 40 the low level (the code spells
the four tiers "Critical (HNDL)", "High - Quantum Vulnerable", "Moderate"
and "Low"). -/
theorem risk_score_in_range_and_thresholds (asset : String) (cfg : ScanConfig)
    (genv : GeoEnv) (senv : SslProbe) (y : Int) :
    (analyze_asset asset cfg genv senv y).Risk_Score ≤ 100 ∧
    (analyze_asset asset cfg genv senv y).Quantum_Risk =
      risk_level (analyze_asset asset cfg genv senv y).Risk_Score ∧
    (∀ s : Nat,
      (80 ≤ s → risk_level s = "Critical (HNDL)") ∧
      (60 ≤ s → s < 80 → risk_level s = "High - Quantum Vulnerable") ∧
      (40 ≤ s → s < 60 → risk_level s = "Moderate") ∧
      (s < 40 → risk_level s = "Low")) := by
  refine ⟨?_, analyze_Quantum_Risk asset cfg genv senv y, ?_⟩
  · rw [analyze_Risk_Score]
    exact risk_score_le_100 _ _ _ _ _
  · intro s
    refine ⟨fun h => ?_, fun h1 h2 => ?_, fun h1 h2 => ?_, fun h => ?_⟩ <;>
      (unfold risk_level; split_ifs <;> first | rfl | omega)

/-- C1 witness: the theorem instantiated at a concrete asset and
environment; the threshold clause instantiated at score 85. -/
theorem risk_score_in_range_and_thresholds_witness :
    (analyze_asset "example.com" standardConfig ⟨.failure, .timeout, .error⟩
      .failure 2025).Risk_Score ≤ 100 ∧
    risk_level 85 = "Critical (HNDL)" :=
  ⟨(risk_score_in_range_and_thresholds "example.com" standardConfig
      ⟨.failure, .timeout, .error⟩ .failure 2025).1,
   ((risk_score_in_range_and_thresholds "example.com" standardConfig
      ⟨.failure, .timeout, .error⟩ .failure 2025).2.2 85).1 (by decide)⟩

/-- C2 counterexample: discovery does *not* always return the root domain.
For domain `zzz.com` under the Standard Recon configuration (max 10 assets,
common wordlist), the root domain sorts lexicographically after every
wordlist entry and is cut off by the `[:max_assets]` truncation, so it is
absent from the returned list. -/
theorem run_recon_drops_root :
    "zzz.com" ∉ run_recon "zzz.com" standardConfig [] := by decide

/-- C2 (amended): the returned asset list always has at most
`config.max_assets` elements, and the root domain is always added to the
discovered set before sorting and truncation; it is guaranteed to appear in
the *returned* list only when it survives truncation — in particular
whenever the sorted deduplicated candidate list fits within
`config.max_assets`. -/
theorem run_recon_bounded_root_in_discovered (domain : String)
    (cfg : ScanConfig) (ct : List String) :
    (run_recon domain cfg ct).length ≤ cfg.max_assets ∧
    domain ∈ discovered_assets domain cfg ct ∧
    ((sorted_assets domain cfg ct).length ≤ cfg.max_assets →
      domain ∈ run_recon domain cfg ct) := by
  have hmem : domain ∈ discovered_assets domain cfg ct := by
    simp [discovered_assets]
  refine ⟨?_, hmem, fun h => ?_⟩
  · rw [run_recon, List.length_take]
    exact min_le_left _ _
  · rw [run_recon, List.take_of_length_le h]
    exact (mem_sortStrings _).2 (List.mem_dedup.2 hmem)

/-- C2 witness: with a configuration allowing 40 assets and the common
wordlist, no truncation occurs and the root domain is in the result. -/
theorem run_recon_bounded_root_in_discovered_witness :
    "example.com" ∈ run_recon "example.com" ⟨40, false, true, true, ["common"], 10⟩ [] :=
  (run_recon_bounded_root_in_discovered "example.com"
    ⟨40, false, true, true, ["common"], 10⟩ []).2.2 (by decide)

/-- C3: for an asset of CRITICAL criticality with an invalid TLS record,
an assessment of urgency IMMEDIATE and a resolved geolocation, under a
quantum-enabled configuration the risk score is exactly
90 = 40 (criticality) + 20 (invalid TLS) + 30 (capped quantum, min 30 (95/3))
+ 0 (geo resolved), the risk level is the critical tier, and the
remediation string mentions both the PQC migration and the certificate
deployment action. -/
theorem critical_invalid_immediate_scores_90
    (asset : String) (cfg : ScanConfig) (genv : GeoEnv) (senv : SslProbe)
    (y : Int)
    (hq : cfg.enable_quantum = true)
    (hc : assetCriticality asset = "CRITICAL")
    (hssl : (check_ssl_cert cfg senv).valid = false)
    (hu : (assess_crypto_vulnerability "RSA" 2048 y).urgency = "IMMEDIATE")
    (hgeo : (get_geo_data cfg genv).country ≠ "Unknown") :
    (analyze_asset asset cfg genv senv y).Risk_Score = 90 ∧
    (analyze_asset asset cfg genv senv y).Quantum_Risk = "Critical (HNDL)" ∧
    strContains (analyze_asset asset cfg genv senv y).Solution
      "QUANTUM THREAT: Migrate to ML-KEM-1024" = true ∧
    strContains (analyze_asset asset cfg genv senv y).Solution
      "Deploy valid SSL/TLS certificate" = true := by
  have hq95 : (assess_crypto_vulnerability "RSA" 2048 y).quantum_risk_score = 95 :=
    urgency_immediate_quantum_risk _ _ _ hu
  have hscore : (analyze_asset asset cfg genv senv y).Risk_Score = 90 := by
    rw [analyze_Risk_Score, hq, hc]
    simp [risk_score, hssl, hgeo, hq95]
  refine ⟨hscore, ?_, ?_, ?_⟩
  · rw [analyze_Quantum_Risk, hscore]
    decide
  · rw [analyze_Solution, hq]
    cases hqs : (check_ssl_cert cfg senv).quantum_safe <;>
      simp [solution, solution_parts, QuantumAssessment.view,
        PQCRecommendation.view, recommend_pqc_algorithm, pqc_recommendations,
        hc, hssl, hqs, hu] <;> decide
  · rw [analyze_Solution, hq]
    cases hqs : (check_ssl_cert cfg senv).quantum_safe <;>
      simp [solution, solution_parts, QuantumAssessment.view,
        PQCRecommendation.view, recommend_pqc_algorithm, pqc_recommendations,
        hc, hssl, hqs, hu] <;> decide

/-- Probe environment for the C3 witness: DNS resolves and the primary
geolocation provider answers with a success payload. -/
def resolvedGeoEnv : GeoEnv :=
  ⟨.ok "93.184.216.34",
   .payload ⟨some "success", none, none, some "Germany", some "Berlin",
     some "ExampleNet", some "Europe/Berlin"⟩,
   .error⟩

/-- C3 witness: asset `vault.example.com` (criticality CRITICAL by
keyword), failed TLS handshake, year 2028 (2 years until the RSA-2048 break
year 2030, hence IMMEDIATE urgency), resolved geolocation. -/
theorem critical_invalid_immediate_scores_90_witness :
    (analyze_asset "vault.example.com" deepQuantumConfig resolvedGeoEnv
      .failure 2028).Risk_Score = 90 ∧
    (analyze_asset "vault.example.com" deepQuantumConfig resolvedGeoEnv
      .failure 2028).Quantum_Risk = "Critical (HNDL)" :=
  let t := critical_invalid_immediate_scores_90 "vault.example.com"
    deepQuantumConfig resolvedGeoEnv .failure 2028 rfl (by decide) (by decide)
    (by decide) (by decide)
  ⟨t.1, t.2.1⟩

/-- C4: for every crypto family, key size and current year, the
assessment computes `years_until_vulnerable = max 0 (break_year − current_year)`
and the urgency tier is exactly: IMMEDIATE for at most 3 years, URGENT for
4–5, HIGH for 6–7, MODERATE beyond — boundaries resolving to the more
urgent tier. -/
theorem assess_years_and_urgency_tiers (c : String) (k : Nat) (y : Int) :
    (assess_crypto_vulnerability c k y).years_until_vulnerable =
      max 0 ((assess_crypto_vulnerability c k y).vulnerability_year - y) ∧
    ((assess_crypto_vulnerability c k y).years_until_vulnerable ≤ 3 →
      (assess_crypto_vulnerability c k y).urgency = "IMMEDIATE") ∧
    (3 < (assess_crypto_vulnerability c k y).years_until_vulnerable →
      (assess_crypto_vulnerability c k y).years_until_vulnerable ≤ 5 →
      (assess_crypto_vulnerability c k y).urgency = "URGENT") ∧
    (5 < (assess_crypto_vulnerability c k y).years_until_vulnerable →
      (assess_crypto_vulnerability c k y).years_until_vulnerable ≤ 7 →
      (assess_crypto_vulnerability c k y).urgency = "HIGH") ∧
    (7 < (assess_crypto_vulnerability c k y).years_until_vulnerable →
      (assess_crypto_vulnerability c k y).urgency = "MODERATE") := by
  refine ⟨rfl, fun h => ?_, fun h1 h2 => ?_, fun h1 h2 => ?_, fun h => ?_⟩ <;>
    simp only [assess_crypto_vulnerability] at * <;>
    split_ifs at * <;> simp_all <;> omega

/-- C4 witness: RSA-2048 in 2028 is 2 years from its break year, an
IMMEDIATE-tier value. -/
theorem assess_years_and_urgency_tiers_witness :
    (assess_crypto_vulnerability "RSA" 2048 2028).urgency = "IMMEDIATE" :=
  (assess_years_and_urgency_tiers "RSA" 2048 2028).2.1 (by decide)

/-- C5 counterexample: a call with crypto family AES and the source's
default key size 2048 does *not* return Grover/2040 — the
`key_size >= 1024` branch reclassifies it as RSA, giving Shor with break
year 2030. -/
theorem assess_aes_default_key_is_shor :
    (assess_crypto_vulnerability "AES" 2048 2025).threat_algorithm = "Shor" ∧
    (assess_crypto_vulnerability "AES" 2048 2025).vulnerability_year = 2030 ∧
    (assess_crypto_vulnerability "AES" 2048 2025).crypto_type = "RSA" := by
  decide

/-- C5 (amended): AES and SHA yield Grover with break year 2040 only for
key sizes below 1024 bits; every call with a key size of at least 1024 bits
is reclassified as RSA and yields Shor with break year 2030 for keys up to
2048 bits and 2032 for larger ones; RSA and ECC below 1024 bits yield Shor
with break year 2030. -/
theorem assess_family_table (c : String) (k : Nat) (y : Int) :
    (k < 1024 → (c = "AES" ∨ c = "SHA") →
      (assess_crypto_vulnerability c k y).threat_algorithm = "Grover" ∧
      (assess_crypto_vulnerability c k y).vulnerability_year = 2040) ∧
    (k < 1024 → (c = "RSA" ∨ c = "ECC") →
      (assess_crypto_vulnerability c k y).threat_algorithm = "Shor" ∧
      (assess_crypto_vulnerability c k y).vulnerability_year = 2030) ∧
    (1024 ≤ k →
      (assess_crypto_vulnerability c k y).crypto_type = "RSA" ∧
      (assess_crypto_vulnerability c k y).threat_algorithm = "Shor" ∧
      (assess_crypto_vulnerability c k y).vulnerability_year =
        (if k ≤ 2048 then 2030 else 2032)) := by
  refine ⟨fun hk hc => ?_, fun hk hc => ?_, fun hk => ?_⟩
  · have hk2 : ¬ (1024 ≤ k) := by omega
    rcases hc with rfl | rfl <;>
      simp [assess_crypto_vulnerability, vulnerability_map, hk2]
  · have hk2 : ¬ (1024 ≤ k) := by omega
    have hk3 : k ≤ 2048 := by omega
    rcases hc with rfl | rfl <;>
      simp [assess_crypto_vulnerability, vulnerability_map, hk2, hk3]
  · simp [assess_crypto_vulnerability, vulnerability_map, hk]

/-- C5 witness: AES with a 256-bit key is classified as AES and yields
Grover/2040. -/
theorem assess_family_table_witness :
    (assess_crypto_vulnerability "AES" 256 2025).threat_algorithm = "Grover" ∧
    (assess_crypto_vulnerability "AES" 256 2025).vulnerability_year = 2040 :=
  (assess_family_table "AES" 256 2025).1 (by decide) (Or.inl rfl)

/-- C6: under a configuration with quantum analysis disabled the quantum
term contributes exactly 0 — the score is independent of the assessed
quantum risk — and the maximum attainable risk score is
70 = 40 (criticality) + 20 (TLS) + 10 (geolocation), attained e.g. by a
critical asset with invalid TLS and unresolved geolocation. -/
theorem quantum_disabled_ceiling (asset : String) (cfg : ScanConfig)
    (genv : GeoEnv) (senv : SslProbe) (y : Int) (q q' : Nat) (c co : String)
    (ssl : SslData) (h : cfg.enable_quantum = false) :
    (analyze_asset asset cfg genv senv y).Risk_Score ≤ 70 ∧
    risk_score c ssl false q co = risk_score c ssl false q' co ∧
    risk_score "CRITICAL" default_ssl false 30 "Unknown" = 70 := by
  refine ⟨?_, risk_score_quantum_off c ssl q q' co, by decide⟩
  rw [analyze_Risk_Score, h]
  exact risk_score_quantum_off_le_70 _ _ _ _

/-- C6 witness: the theorem at a concrete asset under Standard Recon
(quantum disabled), with two different quantum risk inputs. -/
theorem quantum_disabled_ceiling_witness :
    (analyze_asset "example.com" standardConfig ⟨.failure, .timeout, .error⟩
      .failure 2025).Risk_Score ≤ 70 ∧
    risk_score "HIGH" default_ssl false 95 "Unknown" =
      risk_score "HIGH" default_ssl false 50 "Unknown" ∧
    risk_score "CRITICAL" default_ssl false 30 "Unknown" = 70 :=
  quantum_disabled_ceiling "example.com" standardConfig
    ⟨.failure, .timeout, .error⟩ .failure 2025 95 50 "HIGH" "Unknown"
    default_ssl rfl

/-- C7: whenever DNS resolution fails, or both the primary and the
fallback geolocation provider fail (timeout, non-success status, or
malformed payload), the geolocation probe returns the sentinel record
(Unknown country/city/isp, 0.0 coordinates, ip "N/A") — the probe is a
total function, so no exception escapes it — and the per-asset pipeline
still completes, producing a report carrying the sentinel geography. -/
theorem geo_failure_yields_sentinel (asset : String) (cfg : ScanConfig)
    (genv : GeoEnv) (senv : SslProbe) (y : Int)
    (h : genv.dns = .failure ∨
      (primary_failed genv.primary ∧ fallback_failed genv.fallback)) :
    get_geo_data cfg genv = default_geo ∧
    (analyze_asset asset cfg genv senv y).country = "Unknown" ∧
    (analyze_asset asset cfg genv senv y).city = "Unknown" ∧
    (analyze_asset asset cfg genv senv y).isp = "Unknown" ∧
    (analyze_asset asset cfg genv senv y).ip = "N/A" ∧
    (analyze_asset asset cfg genv senv y).lat = 0.0 ∧
    (analyze_asset asset cfg genv senv y).lon = 0.0 := by
  have hgeo : get_geo_data cfg genv = default_geo := by
    obtain ⟨dns, prim, fb⟩ := genv
    rcases h with h | ⟨hp, hf⟩
    · simp only at h
      subst h
      simp [get_geo_data]
    · cases dns with
      | failure => simp [get_geo_data]
      | ok ip =>
        cases prim with
        | otherError => simp [get_geo_data]
        | timeout =>
          cases fb <;>
            simp_all [get_geo_data, try_fallback, fallback_failed]
        | httpError =>
          cases fb <;>
            simp_all [get_geo_data, try_fallback, fallback_failed]
        | payload d =>
          have hp2 : ¬ d.status = some "success" := hp
          cases fb <;>
            simp_all [get_geo_data, try_fallback, fallback_failed]
  refine ⟨hgeo, ?_, ?_, ?_, ?_, ?_, ?_⟩ <;>
    simp [analyze_asset, hgeo, default_geo]

/-- C7 witness: DNS resolves but the primary provider times out and the
fallback errors; the probe returns the sentinel and the report is
produced. -/
theorem geo_failure_yields_sentinel_witness :
    get_geo_data deepQuantumConfig ⟨.ok "93.184.216.34", .timeout, .error⟩ =
      default_geo ∧
    (analyze_asset "example.com" deepQuantumConfig
      ⟨.ok "93.184.216.34", .timeout, .error⟩ .failure 2025).country =
      "Unknown" :=
  let t := geo_failure_yields_sentinel "example.com" deepQuantumConfig
    ⟨.ok "93.184.216.34", .timeout, .error⟩ .failure 2025
    (Or.inr ⟨True.intro, True.intro⟩)
  ⟨t.1, t.2.1⟩

/-- C8: the scoring path is deterministic — two runs of the per-asset
scoring computation on identical inputs (criticality, TLS record, quantum
flag and assessed risk, geolocation country) return the same risk score and
the same risk level; the embedded scoring function takes no other input, so
no randomness or hidden state can influence the score. -/
theorem scoring_deterministic (c1 c2 : String) (s1 s2 : SslData)
    (b1 b2 : Bool) (q1 q2 : Nat) (co1 co2 : String)
    (hc : c1 = c2) (hs : s1 = s2) (hb : b1 = b2) (hq : q1 = q2)
    (hco : co1 = co2) :
    risk_score c1 s1 b1 q1 co1 = risk_score c2 s2 b2 q2 co2 ∧
    risk_level (risk_score c1 s1 b1 q1 co1) =
      risk_level (risk_score c2 s2 b2 q2 co2) := by
  subst hc
  subst hs
  subst hb
  subst hq
  subst hco
  exact ⟨rfl, rfl⟩

/-- C8 witness: the theorem at one concrete input tuple. -/
theorem scoring_deterministic_witness :
    risk_score "CRITICAL" default_ssl true 95 "Unknown" =
      risk_score "CRITICAL" default_ssl true 95 "Unknown" :=
  (scoring_deterministic "CRITICAL" "CRITICAL" default_ssl default_ssl
    true true 95 95 "Unknown" "Unknown" rfl rfl rfl rfl rfl).1

/-- Folding addition over a list sums it, for any accumulator. -/
theorem elapsed_foldl_aux (a : Nat) (l : List Nat) :
    l.foldl (fun acc t => acc + t) a = a + l.sum := by
  induction l generalizing a with
  | nil => simp
  | cons x l ih => simp [List.foldl, ih]; omega

/-- C9 counterexample: the analysis loop is strictly sequential (each
iteration awaits the full analysis of one asset before starting the next),
so with the Standard Recon timeout of 10 and five assets each taking the
full timeout, the loop takes 5 × 10 = 50 — the slowest call multiplied by
the asset count, and beyond the timeout plus a one-timeout grace period.
No bounded worker pool exists in `build_intelligence` to bound this. -/
theorem sequential_loop_time_counterexample :
    build_intelligence_elapsed (List.replicate 5 standardConfig.timeout) =
      5 * standardConfig.timeout ∧
    standardConfig.timeout + standardConfig.timeout <
      build_intelligence_elapsed (List.replicate 5 standardConfig.timeout) := by
  decide

/-- C9 (amended): `build_intelligence` processes assets strictly
sequentially, one `await` at a time; its elapsed time is the sum of the
per-asset elapsed times, hence grows linearly with the asset count
(n × t for n assets taking t each) instead of being bounded by
O(timeout) per batch. -/
theorem build_intelligence_sequential_time (n t : Nat) (l : List Nat) :
    build_intelligence_elapsed l = l.sum ∧
    build_intelligence_elapsed (List.replicate n t) = n * t := by
  constructor
  · simpa using elapsed_foldl_aux 0 l
  · simp [build_intelligence_elapsed, elapsed_foldl_aux, List.sum_replicate,
      smul_eq_mul]

/-- C10: every hostname is classified CRITICAL, HIGH or MODERATE, with
the precedence: any critical keyword (vault, api, pqc, secure, admin,
gateway, quantum, keys, auth, iam, sso, identity) in the lowercased
hostname gives CRITICAL — even if dev/test/staging also occurs; otherwise
dev, test or staging gives MODERATE; otherwise the default is HIGH. -/
theorem criticality_classification (asset : String) :
    (assetCriticality asset = "CRITICAL" ∨ assetCriticality asset = "HIGH" ∨
      assetCriticality asset = "MODERATE") ∧
    ((critical_keywords.any fun k => strContains (strLower asset) k) = true →
      assetCriticality asset = "CRITICAL") ∧
    ((critical_keywords.any fun k => strContains (strLower asset) k) = false →
      (moderate_keywords.any fun k => strContains (strLower asset) k) = true →
      assetCriticality asset = "MODERATE") ∧
    ((critical_keywords.any fun k => strContains (strLower asset) k) = false →
      (moderate_keywords.any fun k => strContains (strLower asset) k) = false →
      assetCriticality asset = "HIGH") := by
  unfold assetCriticality
  split_ifs <;> simp_all

/-- C10 witness: `dev-api.example.com` contains both the critical keyword
`api` and the keyword `dev`; criticality is CRITICAL. -/
theorem criticality_classification_witness :
    assetCriticality "dev-api.example.com" = "CRITICAL" :=
  (criticality_classification "dev-api.example.com").2.1 (by decide)

end SentinelV
